import Mathlib

/-!
Verification of the suada-mcp repository (Python sources
`src/python/suada_mcp.py` and `src/python/suada_server.py`) against its
natural-language specification.

The embedding models:
- JSON-like Python values (`JValue`) with Python truthiness;
- the direct client `SuadaMCP.process` as a pure function of the request,
  the client configuration, and an oracle describing the outcome of the
  single outbound HTTP POST (`HTTPOutcome`);
- the MCP server tool handlers `business_analyst` and `data_retrieval` as
  pure functions of their parameters and an oracle describing the outcome
  of the SDK `chat` call (`ChatOutcome`).

Exceptions are modelled explicitly: a handler either returns a value or
raises, so claims such as "process never raises" become statements about
which `ProcessResult` constructor is produced.
-/

/-- JSON-like values, standing in for the Python objects that flow through
dict payloads, parsed response bodies and metadata mappings. Objects are
association lists in insertion order (Python dicts preserve insertion order
and have unique keys). -/
inductive JValue where
  | null : JValue
  | bool (b : Bool) : JValue
  | num (n : Int) : JValue
  | str (s : String) : JValue
  | arr (xs : List JValue) : JValue
  | obj (fields : List (String × JValue)) : JValue

/-- Python truthiness of a `JValue`: `None`, `False`, `0`, `""`, `[]` and
`\x7b\x7d` are falsy, everything else truthy. -/
def truthy : JValue → Bool
  | .null => false
  | .bool b => b
  | .num n => n != 0
  | .str s => s ≠ ""
  | .arr xs => !xs.isEmpty
  | .obj fs => !fs.isEmpty

/-- Python truthiness of an `Optional[str]`: `None` and `""` are falsy. -/
def truthyOptStr : Option String → Bool
  | none => false
  | some s => s ≠ ""

/-- First value stored under key `k` in an association list
(Python dict lookup; keys are unique in a real dict). -/
def lookupField (fs : List (String × JValue)) (k : String) : Option JValue :=
  match fs with
  | [] => none
  | (k2, v) :: rest => if k2 = k then some v else lookupField rest k

/-- Python `d.get(k, default)`: the stored value when the key is present
(even when that value is `None`), else the default. -/
def dictGetD (fs : List (String × JValue)) (k : String) (d : JValue) : JValue :=
  match lookupField fs k with
  | some v => v
  | none => d

/-- The `MCPRequest` dataclass from `suada_mcp.py`. -/
structure MCPRequest where
  query : String
  context : List (String × JValue) := []
  user_id : Option String := none
  conversation_id : Option String := none
  metadata : List (String × JValue) := []

/-- The `MCPResponse` dataclass from `suada_mcp.py`. The Python type hints say
`content: str` and `error: Optional[str]`, but the implementation can place
arbitrary parsed-JSON values there (`data.get("response", "")`,
`error_data["message"]`), so both are modelled as `JValue`. -/
structure MCPResponse where
  content : JValue
  metadata : List (String × JValue) := []
  error : Option JValue := none

/-- The configuration held by a constructed `SuadaMCP` client: a non-empty
API key, a base URL, and the optional default user identifier. -/
structure SuadaMCPClient where
  api_key : String
  base_url : String := "https://suada.ai/api/public"
  external_user_identifier : Option String := none

/-- Oracle for the single outbound `requests.post` call made by `process`,
covering every outcome class distinguishable by the surrounding code:
- `success body`: HTTP 2xx whose body parses as a JSON mapping `body`;
- `httpError status errorBody`: `raise_for_status` raised an `HTTPError`
  carrying a response with status `status`; `errorBody` is `some v` when
  `e.response.json()` parses to `v`, `none` when that parse raises;
- `transportError`: the call raised a `RequestException` whose `response`
  attribute is `None` (connection error, timeout, or a 2xx body on which
  `response.json()` raised `requests.exceptions.JSONDecodeError`);
- `otherException msg`: some exception not derived from `RequestException`
  was raised with `str(e) = msg` (for example attribute access on a non-dict
  parsed body). -/
inductive HTTPOutcome where
  | success (body : List (String × JValue)) : HTTPOutcome
  | httpError (status : Int) (errorBody : Option JValue) : HTTPOutcome
  | transportError : HTTPOutcome
  | otherException (msg : String) : HTTPOutcome

/-- Outcome of a call of `process`: either it returns an `MCPResponse`, or
an exception escapes to the caller. -/
inductive ProcessResult where
  | returns (r : MCPResponse) : ProcessResult
  | raises (exnMsg : String) : ProcessResult

/-- Observable trace of one `process` call: the JSON payload handed to
`requests.post` (`none` when no network call was attempted) and the result. -/
structure ProcessTrace where
  sentPayload : Option (List (String × JValue))
  result : ProcessResult

/-- The `ValueError` message raised when no user identifier resolves. -/
def userIdRequiredMsg : String :=
  "User identifier is required. Provide it in the request or during initialization."

/-- The generic error text used when no upstream `message` is recoverable. -/
def genericCommFailure : JValue :=
  .str "Failed to communicate with Suada API"

/-- The `AttributeError` escaping `process` when the `RequestException`
handler evaluates `e.response.status_code` with `e.response = None`
(Python text of the exception, apostrophes elided). -/
def statusCodeAttrError : String :=
  "AttributeError: NoneType object has no attribute status_code"

/-- Resolution `user_id = request.user_id or self.external_user_identifier` followed by
`if not user_id: raise ValueError(...)`: the resolved identifier, or `none`
when the `ValueError` is raised. Both steps test truthiness, so empty
strings count as absent. -/
def resolveUid (client : SuadaMCPClient) (request : MCPRequest) : Option String :=
  let uid := if truthyOptStr request.user_id then request.user_id
             else client.external_user_identifier
  if truthyOptStr uid then uid else none

/-- The outbound payload built by `process` for resolved identifier `u`:
`message`, `externalUserIdentifier` and `context` always; `conversationId`
only when `request.conversation_id` is truthy. -/
def buildPayload (u : String) (request : MCPRequest) : List (String × JValue) :=
  let payload : List (String × JValue) :=
    [("message", .str request.query),
     ("externalUserIdentifier", .str u),
     ("context", .obj request.context)]
  match request.conversation_id with
  | some cid => if cid ≠ "" then payload ++ [("conversationId", .str cid)] else payload
  | none => payload

/-- The `structured_data` mapping extracted from a successful body: the five
`data.get` calls with their respective empty defaults. A key present in the
body is passed through verbatim, even when its value is `null`. -/
def structuredData (data : List (String × JValue)) : List (String × JValue) :=
  [("metrics", dictGetD data "metrics" (.obj [])),
   ("insights", dictGetD data "insights" (.arr [])),
   ("recommendations", dictGetD data "recommendations" (.arr [])),
   ("risks", dictGetD data "risks" (.arr [])),
   ("reasoning", dictGetD data "reasoning" (.str ""))]

/-- The error text chosen by the `RequestException` handler from the parsed
upstream error body: when the body parsed to a mapping holding a `message`
key, that stored value; otherwise the generic text. (When the parse raised,
or the parsed body is not a mapping, the inner bare `except` leaves the
default in place: `"message" in error_data` over a list or string either
fails the test or makes `error_data["message"]` raise a `TypeError`, which
the bare `except: pass` swallows.) -/
def extractErrorMessage : Option JValue → JValue
  | some (.obj fs) =>
      match lookupField fs "message" with
      | some v => v
      | none => genericCommFailure
  | _ => genericCommFailure

/-- The method `SuadaMCP.process` from `suada_mcp.py`, as a function of the client
configuration, the request, and the HTTP outcome oracle.

Faithful points: the user identifier is resolved by truthiness before any
network activity; the payload adds `conversationId` only when truthy; on
2xx the body is normalized via `structuredData` and retained under
`raw_response`; on an HTTP error carrying a response the metadata holds the
status code and the error text comes from `extractErrorMessage`; on a
`RequestException` with `response = None` the metadata construction
`e.response.status_code if hasattr(e, "response") else None` dereferences
`None` (the `hasattr` test is always true for a `RequestException`) and the
resulting `AttributeError` propagates past both handlers; any other
exception is caught by the final `except Exception` and reported as
`Unexpected error: ...` with empty metadata. -/
def process (client : SuadaMCPClient) (request : MCPRequest)
    (outcome : HTTPOutcome) : ProcessTrace :=
  match resolveUid client request with
  | none =>
      { sentPayload := none,
        result := .returns
          { content := .str "", metadata := [],
            error := some (.str ("Unexpected error: " ++ userIdRequiredMsg)) } }
  | some u =>
      { sentPayload := some (buildPayload u request),
        result :=
          match outcome with
          | .success body =>
              .returns
                { content := dictGetD body "response" (.str ""),
                  metadata := [("suada_data", .obj (structuredData body)),
                               ("raw_response", .obj body)],
                  error := none }
          | .httpError status errorBody =>
              .returns
                { content := .str "",
                  metadata := [("status_code", .num status)],
                  error := some (extractErrorMessage errorBody) }
          | .transportError => .raises statusCodeAttrError
          | .otherException msg =>
              .returns
                { content := .str "", metadata := [],
                  error := some (.str ("Unexpected error: " ++ msg)) } }

/-- Duck-typed SDK chat response used by `suada_server.py`: the five
attributes the handlers read, each possibly `None`. -/
structure ChatResponse where
  response : JValue
  metrics : JValue
  insights : JValue
  recommendations : JValue
  risks : JValue

/-- Oracle for the `self.suada.chat(payload=payload)` call inside a tool
handler: either it returns a `ChatResponse`, or some exception with
`str(e) = msg` is raised there (or by `ChatPayload` construction). -/
inductive ChatOutcome where
  | ok (r : ChatResponse) : ChatOutcome
  | exn (msg : String) : ChatOutcome

/-- Result of one tool handler invocation: a returned mapping, or a
`ToolExecutionError` raised to the server runtime with the given message.
No other exception type can escape the handler body. -/
inductive ToolResult where
  | ok (fields : List (String × JValue)) : ToolResult
  | toolError (msg : String) : ToolResult

/-- Observable trace of one tool handler call: the `message` text of the
`ChatPayload` handed to the SDK chat call, and the result. -/
structure ToolTrace where
  sentMessage : String
  result : ToolResult

/-- Python `x or default` applied to a `JValue` attribute: the attribute when
truthy, else the default (so `None` — and any other falsy value — is
replaced). -/
def pyOrJ (v d : JValue) : JValue :=
  if truthy v then v else d

/-- The `business_analyst` tool handler from `suada_server.py`: wraps
`query` as `ChatPayload(message=query)`, calls the SDK, and builds the
result mapping; `response` is passed through verbatim while the other four
fields go through `x or default`. Any exception becomes
`ToolExecutionError("Failed to get business insights: " + str(e))`. -/
def business_analyst (query : String) (outcome : ChatOutcome) : ToolTrace :=
  { sentMessage := query,
    result :=
      match outcome with
      | .ok r =>
          .ok [("response", r.response),
               ("metrics", pyOrJ r.metrics (.obj [])),
               ("insights", pyOrJ r.insights (.arr [])),
               ("recommendations", pyOrJ r.recommendations (.arr [])),
               ("risks", pyOrJ r.risks (.arr []))]
      | .exn msg => .toolError ("Failed to get business insights: " ++ msg) }

/-- The `data_retrieval` tool handler from `suada_server.py`: builds the
composite instruction `f"Retrieve data from \x7bdata_source\x7d: \x7bquery\x7d"`,
calls the SDK, and on success returns the raw textual response under `data`
together with the two inputs echoed under `metadata`. Any exception becomes
`ToolExecutionError("Failed to retrieve data: " + str(e))`. -/
def data_retrieval (data_source : String) (query : String)
    (outcome : ChatOutcome) : ToolTrace :=
  { sentMessage := "Retrieve data from " ++ data_source ++ ": " ++ query,
    result :=
      match outcome with
      | .ok r =>
          .ok [("data", r.response),
               ("metadata", .obj [("source", .str data_source),
                                  ("query", .str query)])]
      | .exn msg => .toolError ("Failed to retrieve data: " ++ msg) }

/-- The metadata mapping of a returned response (empty when the call
raised instead of returning). -/
def resultMetadata : ProcessResult → List (String × JValue)
  | .returns r => r.metadata
  | .raises _ => []

/-- The error field of a returned response (`none` when the call raised
instead of returning). -/
def resultError : ProcessResult → Option JValue
  | .returns r => r.error
  | .raises _ => none

/-- The field mapping of a successful tool result (empty on a tool error). -/
def toolResultFields : ToolResult → List (String × JValue)
  | .ok fs => fs
  | .toolError _ => []

/-- C7: for both tool handlers, every exception raised inside the handler
body (modelled by `ChatOutcome.exn`) surfaces as exactly one uniform
`ToolExecutionError` carrying a descriptive message, never as the original
exception type: the only raising constructor a handler can produce is
`ToolResult.toolError`. -/
theorem c7_handler_exceptions_wrapped (query ds m : String) :
    (business_analyst query (.exn m)).result =
      .toolError ("Failed to get business insights: " ++ m) ∧
    (data_retrieval ds query (.exn m)).result =
      .toolError ("Failed to retrieve data: " ++ m) :=
  ⟨rfl, rfl⟩

/-- C8: `data_retrieval` always sends the composite instruction
`"Retrieve data from " ++ data_source ++ ": " ++ query` through the chat
call and, on success, returns the raw chat response under `data` with
`metadata = (source, query)`; in particular for `("sales_db", "top
products")` the sent text and metadata are exactly as claimed. -/
theorem c8_data_retrieval_contract :
    (∀ (ds q : String) (outcome : ChatOutcome),
      (data_retrieval ds q outcome).sentMessage =
        "Retrieve data from " ++ ds ++ ": " ++ q) ∧
    (∀ (ds q : String) (r : ChatResponse),
      (data_retrieval ds q (.ok r)).result =
        .ok [("data", r.response),
             ("metadata", .obj [("source", .str ds), ("query", .str q)])]) ∧
    (∀ outcome : ChatOutcome,
      (data_retrieval "sales_db" "top products" outcome).sentMessage =
        "Retrieve data from sales_db: top products") ∧
    (∀ r : ChatResponse,
      toolResultFields (data_retrieval "sales_db" "top products" (.ok r)).result =
        [("data", r.response),
         ("metadata", .obj [("source", .str "sales_db"),
                            ("query", .str "top products")])]) := by
  exact ⟨fun ds q o => rfl, fun ds q r => rfl, fun o => rfl, fun r => rfl⟩

/-- C9 counterexample: a chat response whose `response` attribute is null
yields a returned mapping whose `response` field is null — the handler
substitutes defaults only for the four insight fields, not for `response`,
so the claim that no field of the returned mapping is null fails. -/
theorem c9_null_response_passthrough :
    lookupField (toolResultFields (business_analyst "q"
      (.ok { response := .null, metrics := .obj [("m", .num 1)],
             insights := .arr [.str "i"], recommendations := .arr [.str "r"],
             risks := .arr [.str "k"] })).result) "response" = some .null :=
  rfl

/-- C9 (amended): `business_analyst` maps the five SDK attributes into the
output mapping, applying the truthiness substitution `x or default` to
`metrics`, `insights`, `recommendations` and `risks` only — null values of
those four become empty mapping/sequence — while `response` is passed
through verbatim and may be null. -/
theorem c9_field_mapping (q : String) (r : ChatResponse) (v : JValue) :
    (business_analyst q (.ok r)).result =
      .ok [("response", r.response),
           ("metrics", pyOrJ r.metrics (.obj [])),
           ("insights", pyOrJ r.insights (.arr [])),
           ("recommendations", pyOrJ r.recommendations (.arr [])),
           ("risks", pyOrJ r.risks (.arr []))] ∧
    (business_analyst q (.ok { response := v, metrics := .null, insights := .null,
                               recommendations := .null, risks := .null })).result =
      .ok [("response", v), ("metrics", .obj []), ("insights", .arr []),
           ("recommendations", .arr []), ("risks", .arr [])] :=
  ⟨rfl, rfl⟩

/-- C6: for the request with query "What\x27s our revenue trend?", context
mapping timeframe to "last_quarter" and user_id "u1", the outbound payload
is exactly the three-key mapping message / externalUserIdentifier / context
with no conversationId key, whatever the HTTP outcome; adding
conversation_id "c1" yields the same payload extended with
conversationId = "c1". -/
theorem c6_outbound_payload :
    (∀ outcome : HTTPOutcome,
      (process { api_key := "k" }
        { query := "What\x27s our revenue trend?",
          context := [("timeframe", .str "last_quarter")],
          user_id := some "u1" } outcome).sentPayload =
        some [("message", .str "What\x27s our revenue trend?"),
              ("externalUserIdentifier", .str "u1"),
              ("context", .obj [("timeframe", .str "last_quarter")])]) ∧
    lookupField [("message", .str "What\x27s our revenue trend?"),
                 ("externalUserIdentifier", .str "u1"),
                 ("context", .obj [("timeframe", .str "last_quarter")])]
      "conversationId" = none ∧
    (∀ outcome : HTTPOutcome,
      (process { api_key := "k" }
        { query := "What\x27s our revenue trend?",
          context := [("timeframe", .str "last_quarter")],
          user_id := some "u1",
          conversation_id := some "c1" } outcome).sentPayload =
        some [("message", .str "What\x27s our revenue trend?"),
              ("externalUserIdentifier", .str "u1"),
              ("context", .obj [("timeframe", .str "last_quarter")]),
              ("conversationId", .str "c1")]) :=
  ⟨fun _ => rfl, rfl, fun _ => rfl⟩

/-- C2: when the request carries no user_id and the client was constructed
without a default external_user_identifier, `process` returns the
configuration-error response (non-null error, empty content, empty
metadata) and attempts no network call, whatever the HTTP oracle would
have answered. -/
theorem c2_missing_user_id (client : SuadaMCPClient) (request : MCPRequest)
    (outcome : HTTPOutcome)
    (hreq : request.user_id = none)
    (hcli : client.external_user_identifier = none) :
    process client request outcome =
      { sentPayload := none,
        result := .returns
          { content := .str "", metadata := [],
            error := some (.str ("Unexpected error: " ++ userIdRequiredMsg)) } } := by
  simp [process, resolveUid, hreq, hcli, truthyOptStr]

theorem c2_missing_user_id_witness :
    process { api_key := "k" } { query := "q" } (.success [("response", .str "hi")]) =
      { sentPayload := none,
        result := .returns
          { content := .str "", metadata := [],
            error := some (.str ("Unexpected error: " ++ userIdRequiredMsg)) } } :=
  c2_missing_user_id { api_key := "k" } { query := "q" }
    (.success [("response", .str "hi")]) rfl rfl

/-- C1 (code evaluated at the failing input): a transport failure with no
attached HTTP response — e.g. a `requests.exceptions.ConnectionError` —
makes `process` raise (the `RequestException` handler dereferences
`e.response = None` when building the status_code metadata, and that
`AttributeError` is not caught by the following `except Exception` clause
of the same try statement), contradicting the claim that `process` always
returns an `MCPResponse`. -/
theorem c1_transport_error_escapes :
    (process { api_key := "k", external_user_identifier := some "u1" }
      { query := "What is our churn?" } .transportError).result =
      .raises statusCodeAttrError :=
  rfl

/-- C3 counterexample: for the failing call with a missing user identifier
(no per-request and no configured identifier), the returned metadata is the
empty mapping, so it has no status_code entry at all — the claim that every
failing call returns metadata with a (null-valued) status_code entry is
false. -/
theorem c3_no_status_code_entry :
    resultError ((process { api_key := "k" } { query := "q" }
      (.success [])).result) =
        some (.str ("Unexpected error: " ++ userIdRequiredMsg)) ∧
    resultMetadata ((process { api_key := "k" } { query := "q" }
      (.success [])).result) = [] ∧
    lookupField (resultMetadata ((process { api_key := "k" } { query := "q" }
      (.success [])).result)) "status_code" = none :=
  ⟨rfl, rfl, rfl⟩

/-- C3 (amended): when a user identifier resolves, a failure carrying an
HTTP response yields metadata whose single entry status_code equals that
HTTP status; a non-network fault caught by the final handler yields empty
metadata (no status_code entry); and a `RequestException` carrying no HTTP
response makes `process` raise instead of returning a response at all. -/
theorem c3_status_code_amended (client : SuadaMCPClient) (request : MCPRequest)
    (u : String) (h : resolveUid client request = some u) :
    (∀ (status : Int) (errorBody : Option JValue),
      resultMetadata ((process client request (.httpError status errorBody)).result) =
        [("status_code", .num status)]) ∧
    (∀ msg : String,
      resultMetadata ((process client request (.otherException msg)).result) = []) ∧
    (process client request .transportError).result = .raises statusCodeAttrError := by
  refine ⟨fun status eb => ?_, fun msg => ?_, ?_⟩ <;> simp [process, h, resultMetadata]

theorem c3_status_code_amended_witness :
    resultMetadata ((process { api_key := "k" } { query := "q", user_id := some "u1" }
      (.httpError 404 none)).result) = [("status_code", .num 404)] ∧
    resultMetadata ((process { api_key := "k" } { query := "q", user_id := some "u1" }
      (.otherException "boom")).result) = [] :=
  ⟨(c3_status_code_amended { api_key := "k" } { query := "q", user_id := some "u1" }
      "u1" rfl).1 404 none,
   (c3_status_code_amended { api_key := "k" } { query := "q", user_id := some "u1" }
      "u1" rfl).2.1 "boom"⟩

/-- C4 (code evaluated at the failing input, with the intact part proved):
when the HTTP failure carries a response whose body parses to a mapping
with a message key, that stored message is the returned error; when the
error body does not parse, the generic failed-to-communicate text is used;
but a transport failure carrying no HTTP response — also covered by the
claim — makes `process` raise instead of returning the generic-error
response. -/
theorem c4_error_message_selection
    (fs : List (String × JValue)) (m : JValue)
    (hmsg : lookupField fs "message" = some m) :
    (∀ status : Int,
      resultError ((process { api_key := "k" }
        { query := "q", user_id := some "u1" }
        (.httpError status (some (.obj fs)))).result) = some m) ∧
    (∀ status : Int,
      resultError ((process { api_key := "k" }
        { query := "q", user_id := some "u1" }
        (.httpError status none)).result) = some genericCommFailure) ∧
    (process { api_key := "k" } { query := "q", user_id := some "u1" }
      .transportError).result = .raises statusCodeAttrError := by
  refine ⟨fun status => ?_, fun status => ?_, rfl⟩ <;>
    simp [process, resolveUid, truthyOptStr, extractErrorMessage, hmsg, resultError]

theorem c4_error_message_selection_witness :
    resultError ((process { api_key := "k" }
      { query := "q", user_id := some "u1" }
      (.httpError 401 (some (.obj [("message", .str "Invalid API key")])))).result) =
      some (.str "Invalid API key") :=
  (c4_error_message_selection [("message", .str "Invalid API key")]
    (.str "Invalid API key") rfl).1 401

/-- C5 counterexample: a successful body that stores an explicit null under
metrics yields a structured-insights block whose metrics field is null —
`data.get` passes stored nulls through — so the claim that the
structured-insights fields are never null is false. -/
theorem c5_null_metrics_passthrough :
    (process { api_key := "k" } { query := "q", user_id := some "u1" }
      (.success [("metrics", .null)])).result =
      .returns
        { content := .str "",
          metadata :=
            [("suada_data", .obj
               [("metrics", .null), ("insights", .arr []),
                ("recommendations", .arr []), ("risks", .arr []),
                ("reasoning", .str "")]),
             ("raw_response", .obj [("metrics", .null)])],
          error := none } :=
  rfl

/-- C5 (amended): on a successful call the content is the response field of the body
field (empty text when absent), the full parsed body is retained verbatim
under raw_response next to the structured block, the error is null, and
each structured-insights field defaults to its empty value when its key is
absent from the body; a key present in the body is passed through
verbatim, even when its stored value is null. -/
theorem c5_success_normalization (client : SuadaMCPClient) (request : MCPRequest)
    (u : String) (h : resolveUid client request = some u)
    (body : List (String × JValue)) :
    (process client request (.success body)).result =
      .returns
        { content := dictGetD body "response" (.str ""),
          metadata := [("suada_data", .obj (structuredData body)),
                       ("raw_response", .obj body)],
          error := none } ∧
    (lookupField body "metrics" = none →
      lookupField (structuredData body) "metrics" = some (.obj [])) ∧
    (lookupField body "insights" = none →
      lookupField (structuredData body) "insights" = some (.arr [])) ∧
    (lookupField body "recommendations" = none →
      lookupField (structuredData body) "recommendations" = some (.arr [])) ∧
    (lookupField body "risks" = none →
      lookupField (structuredData body) "risks" = some (.arr [])) ∧
    (lookupField body "reasoning" = none →
      lookupField (structuredData body) "reasoning" = some (.str "")) ∧
    (lookupField body "response" = none →
      dictGetD body "response" (.str "") = .str "") ∧
    (∀ v : JValue, lookupField body "metrics" = some v →
      lookupField (structuredData body) "metrics" = some v) := by
  refine ⟨by simp [process, h], fun hk => ?_, fun hk => ?_, fun hk => ?_,
          fun hk => ?_, fun hk => ?_, fun hk => ?_, fun v hk => ?_⟩ <;>
    simp +decide [structuredData, lookupField, dictGetD, hk]

theorem c5_success_normalization_witness :
    (process { api_key := "k" } { query := "q", user_id := some "u1" }
      (.success [("response", .str "All good")])).result =
      .returns
        { content := .str "All good",
          metadata :=
            [("suada_data", .obj
               [("metrics", .obj []), ("insights", .arr []),
                ("recommendations", .arr []), ("risks", .arr []),
                ("reasoning", .str "")]),
             ("raw_response", .obj [("response", .str "All good")])],
          error := none } ∧
    lookupField (structuredData [("response", .str "All good")]) "metrics" =
      some (.obj []) :=
  ⟨(c5_success_normalization { api_key := "k" }
      { query := "q", user_id := some "u1" } "u1" rfl
      [("response", .str "All good")]).1,
   (c5_success_normalization { api_key := "k" }
      { query := "q", user_id := some "u1" } "u1" rfl
      [("response", .str "All good")]).2.1 rfl⟩

/-- C10: the client tests identifiers for truthiness, not presence: a
request whose conversation_id is the empty string yields a payload with no
conversationId key, and a request whose user_id is the empty string — with
the configured default also empty or absent — is treated as missing a user
identifier and gets the precondition-failure response with no network
call. -/
theorem c10_truthiness_not_presence (client : SuadaMCPClient)
    (request : MCPRequest) (outcome : HTTPOutcome) (u : String) :
    (request.conversation_id = some "" → resolveUid client request = some u →
      (process client request outcome).sentPayload =
        some [("message", .str request.query),
              ("externalUserIdentifier", .str u),
              ("context", .obj request.context)] ∧
      lookupField [("message", .str request.query),
                   ("externalUserIdentifier", .str u),
                   ("context", .obj request.context)] "conversationId" = none) ∧
    (request.user_id = some "" →
      (client.external_user_identifier = none ∨
       client.external_user_identifier = some "") →
      process client request outcome =
        { sentPayload := none,
          result := .returns
            { content := .str "", metadata := [],
              error := some (.str ("Unexpected error: " ++ userIdRequiredMsg)) } }) := by
  constructor
  · intro hc h
    constructor
    · simp [process, h, buildPayload, hc]
    · simp +decide [lookupField]
  · intro hu hcli
    rcases hcli with hcli | hcli <;>
      simp [process, resolveUid, hu, hcli, truthyOptStr]

theorem c10_truthiness_not_presence_witness :
    ((process { api_key := "k" }
      { query := "q", user_id := some "u1", conversation_id := some "" }
      (.success [])).sentPayload =
        some [("message", .str "q"), ("externalUserIdentifier", .str "u1"),
              ("context", .obj [])] ∧
      lookupField [("message", .str "q"), ("externalUserIdentifier", .str "u1"),
                   ("context", .obj [])] "conversationId" = none) ∧
    process { api_key := "k", external_user_identifier := some "" }
      { query := "q", user_id := some "" } (.success []) =
      { sentPayload := none,
        result := .returns
          { content := .str "", metadata := [],
            error := some (.str ("Unexpected error: " ++ userIdRequiredMsg)) } } :=
  ⟨(c10_truthiness_not_presence { api_key := "k" }
      { query := "q", user_id := some "u1", conversation_id := some "" }
      (.success []) "u1").1 rfl rfl,
   (c10_truthiness_not_presence { api_key := "k", external_user_identifier := some "" }
      { query := "q", user_id := some "" }
      (.success []) "u1").2 rfl (Or.inr rfl)⟩
